import Mathlib

/-!
Shallow embedding of `src/clutter/clutter/clutter-settings.c` (the Clutter
settings-synchronization layer of mutter) and proofs about the claims of the
specification.

Modelling conventions:
* C `double` arithmetic is embedded as exact rational arithmetic (`ℚ`); every
  concrete value appearing in the claims (powers of two, small decimals) is
  represented exactly by IEEE doubles, so the rational model agrees with the C
  program on them.
* `GSettings` stores are abstract key-to-value maps (the platform preference
  store is an external interface).  A possibly-NULL `GSettings *` is an
  `Option GSettingsStore`; GLib accessor calls on a NULL instance hit a
  `g_return_val_if_fail` guard and return the type default (FALSE / 0 / 0.0 /
  -1 for `g_settings_get_enum`), which the `gSettingsGet*` wrappers reproduce.
* Calls out of the module (backend signals, `clutter_backend_set_font_options`,
  `clutter_seat_set_pointer_a11y_settings`, `g_warning`, GObject `notify`) are
  recorded as an ordered list of `Event`s, the observable trace of an
  operation.
* GObject property machinery: `g_object_set` with several properties freezes
  the notification queue, runs `clutter_settings_set_property` once per
  property in argument order, and then calls the class
  `dispatch_properties_changed` exactly once with the list of changed pspecs;
  `setPropertyList` / `gObjectSet` embed this protocol for batches of distinct
  properties.
-/

/-- Cairo `cairo_hint_style_t` (only the members used by the C file). -/
inductive CairoHintStyle
  | default
  | none
  | slight
  | medium
  | full
  deriving DecidableEq

/-- Cairo `cairo_antialias_t` (only the members used by the C file). -/
inductive CairoAntialias
  | default
  | none
  | gray
  | subpixel
  deriving DecidableEq

/-- Cairo `cairo_subpixel_order_t`. -/
inductive CairoSubpixelOrder
  | default
  | rgb
  | bgr
  | vrgb
  | vbgr
  deriving DecidableEq

/-- Cairo `cairo_hint_metrics_t`. -/
inductive CairoHintMetrics
  | default
  | off
  | on
  deriving DecidableEq

/-- The font-options bundle handed to the rendering backend
(`cairo_font_options_t` restricted to the four fields this module sets;
a freshly created bundle has every field at its `default`). -/
structure FontOptions where
  hintMetrics : CairoHintMetrics
  hintStyle : CairoHintStyle
  subpixelOrder : CairoSubpixelOrder
  antialias : CairoAntialias
  deriving DecidableEq

/-- An open platform preference store (`GSettings *` that is non-NULL):
an abstract mapping from key names to typed values. -/
structure GSettingsStore where
  getEnum : String → Int
  getInt : String → Int
  getDouble : String → ℚ
  getBool : String → Bool

/-- A `GSettings *` pointer that may be NULL.  On a NULL instance the GLib
getters fail their `g_return_val_if_fail` precondition check (emitting a
critical warning) and return FALSE. -/
def gSettingsGetBoolean (o : Option GSettingsStore) (key : String) : Bool :=
  match o with
  | Option.some st => st.getBool key
  | Option.none => false

/-- `g_settings_get_int` on a possibly-NULL instance (0 on NULL). -/
def gSettingsGetInt (o : Option GSettingsStore) (key : String) : Int :=
  match o with
  | Option.some st => st.getInt key
  | Option.none => 0

/-- `g_settings_get_double` on a possibly-NULL instance (0.0 on NULL). -/
def gSettingsGetDouble (o : Option GSettingsStore) (key : String) : ℚ :=
  match o with
  | Option.some st => st.getDouble key
  | Option.none => 0

/-- `g_settings_get_enum` on a possibly-NULL instance (-1 on NULL, per the
`g_return_val_if_fail (G_IS_SETTINGS (settings), -1)` guard). -/
def gSettingsGetEnum (o : Option GSettingsStore) (key : String) : Int :=
  match o with
  | Option.some st => st.getEnum key
  | Option.none => -1

/-- The GObject property identifiers installed by `clutter_settings_class_init`
(`PROP_DOUBLE_CLICK_TIME` … `PROP_UNSCALED_FONT_DPI`). -/
inductive PropId
  | doubleClickTime
  | doubleClickDistance
  | dndDragThreshold
  | fontName
  | fontAntialias
  | fontDpi
  | fontHinting
  | fontHintStyle
  | fontRgba
  | longPressDuration
  | passwordHintTime
  | unscaledFontDpi
  deriving DecidableEq

/-- A `GValue`, restricted to the three value types the installed properties
use (int, string — possibly NULL — and uint). -/
inductive GValue
  | int (i : Int)
  | str (s : Option String)
  | uint (n : Nat)
  deriving DecidableEq

/-- `g_value_get_int` (the GValue carries an int for every int property). -/
def gValueGetInt : GValue → Int
  | GValue.int i => i
  | _ => 0

/-- `g_value_get_uint`. -/
def gValueGetUint : GValue → Nat
  | GValue.uint n => n
  | _ => 0

/-- `g_value_dup_string` (NULL duplicates to NULL). -/
def gValueDupString : GValue → Option String
  | GValue.str s => s
  | _ => Option.none

/-- Splits the longest prefix of decimal digits off a character list. -/
def takeDigits : List Char → List Char × List Char
  | [] => ([], [])
  | c :: cs =>
      if c.isDigit then
        let r := takeDigits cs
        (c :: r.1, r.2)
      else
        ([], c :: cs)

/-- Numeric value of a list of decimal digits. -/
def digitsVal (ds : List Char) : Nat :=
  ds.foldl (fun a c => 10 * a + (c.toNat - 48)) 0

/-- The discrete scanning phase of a C-locale `strtod`: the sign, the integer
digits, the fraction digits and the decimal exponent found at the front of the
string (ignoring trailing characters). -/
structure StrtodScan where
  neg : Bool
  ipDigits : List Char
  fpDigits : List Char
  exp : Int
  deriving DecidableEq

/-- Scans optional whitespace, an optional sign, decimal digits, an optional
fraction and an optional decimal exponent off the front of a string. -/
def strtodScan (s : String) : StrtodScan :=
  let cs0 := s.toList.dropWhile (fun c => c = ' ' ∨ c = '\t' ∨ c = '\n' ∨ c = '\r')
  let signAndRest : Bool × List Char :=
    match cs0 with
    | '-' :: r => (true, r)
    | '+' :: r => (false, r)
    | cs => (false, cs)
  let ipAndRest := takeDigits signAndRest.2
  let fpAndRest : List Char × List Char :=
    match ipAndRest.2 with
    | '.' :: r => takeDigits r
    | cs => ([], cs)
  let e : Int :=
    match fpAndRest.2 with
    | c :: r =>
        if c = 'e' ∨ c = 'E' then
          let esignAndRest : Bool × List Char :=
            match r with
            | '-' :: t => (true, t)
            | '+' :: t => (false, t)
            | t => (false, t)
          let eds := (takeDigits esignAndRest.2).1
          if eds = [] then 0
          else if esignAndRest.1 then -(digitsVal eds : Int) else (digitsVal eds : Int)
        else 0
    | [] => 0
  { neg := signAndRest.1
    ipDigits := ipAndRest.1
    fpDigits := fpAndRest.1
    exp := e }

/-- Model of GLib `g_ascii_strtod` on the inputs relevant here: parses an
optional-whitespace, optional-sign decimal number with optional fraction and
optional decimal exponent from the front of the string and ignores trailing
characters; when no conversion can be performed it returns 0 (hex,
infinity and nan forms are not modelled).  This is an external libc/GLib
routine, not code of this repository. -/
def gAsciiStrtod (s : String) : ℚ :=
  let p := strtodScan s
  if p.ipDigits = [] ∧ p.fpDigits = [] then 0
  else
    let mant : ℚ :=
      (digitsVal p.ipDigits : ℚ) +
        (digitsVal p.fpDigits : ℚ) / ((10 : ℚ) ^ p.fpDigits.length)
    let scaled : ℚ :=
      if 0 ≤ p.exp then mant * (10 : ℚ) ^ p.exp.toNat
      else mant / (10 : ℚ) ^ (-p.exp).toNat
    if p.neg then -scaled else scaled

/-- A C cast `(int) q` of a floating value: truncation toward zero. -/
def cTrunc (q : ℚ) : Int :=
  if 0 ≤ q then Int.floor q else -(Int.floor (-q))

/-- The `ClutterPointerA11yDwellDirection` enum. -/
inductive ClutterPointerA11yDwellDirection
  | none
  | left
  | right
  | up
  | down
  deriving DecidableEq

/-- The `ClutterPointerA11yDwellMode` enum. -/
inductive ClutterPointerA11yDwellMode
  | window
  | gesture
  deriving DecidableEq

/-- The `ClutterPointerA11ySettings` bundle pushed onto the input seat.
`controls` is the `ClutterPointerA11yFlags` bitset
(`CLUTTER_A11Y_SECONDARY_CLICK_ENABLED = 1`, `CLUTTER_A11Y_DWELL_ENABLED = 2`). -/
structure ClutterPointerA11ySettings where
  controls : Nat
  secondary_click_delay : Int
  dwell_delay : Int
  dwell_threshold : Int
  dwell_mode : ClutterPointerA11yDwellMode
  dwell_gesture_single : ClutterPointerA11yDwellDirection
  dwell_gesture_double : ClutterPointerA11yDwellDirection
  dwell_gesture_drag : ClutterPointerA11yDwellDirection
  dwell_gesture_secondary : ClutterPointerA11yDwellDirection
  deriving DecidableEq

/-- One observable call out of the module: a GObject `notify` emission for a
property, one of the three backend signals, a font-options handoff to the
backend, a pointer-accessibility handoff to the seat, or a `g_warning`. -/
inductive Event
  | notify (p : PropId)
  | fontChanged
  | resolutionChanged
  | settingsChanged
  | setFontOptions (fo : FontOptions)
  | seatSet (a : ClutterPointerA11ySettings)
  | warning (msg : String)
  deriving DecidableEq

/-- The `struct _ClutterSettings` instance state.  `backendAttached` records
whether `self->backend` is non-NULL (it is set once by
`_clutter_settings_set_backend`). -/
structure ClutterSettings where
  backendAttached : Bool
  fontSettings : Option GSettingsStore
  mouseSettings : Option GSettingsStore
  mouseA11ySettings : Option GSettingsStore
  double_click_time : Int
  double_click_distance : Int
  dnd_drag_threshold : Int
  resolution : ℚ
  font_name : Option String
  font_dpi : Int
  xft_hinting : Int
  xft_antialias : Int
  xft_hint_style : Option String
  xft_rgba : Option String
  long_press_duration : Int
  last_fontconfig_timestamp : Nat
  password_hint_time : Nat
  unscaled_font_dpi : Int

/-- `clutter_settings_init`: the state of a freshly constructed instance
(fields not assigned there are zero-initialized by GObject). -/
def clutterSettingsInit : ClutterSettings where
  backendAttached := false
  fontSettings := Option.none
  mouseSettings := Option.none
  mouseA11ySettings := Option.none
  double_click_time := 250
  double_click_distance := 5
  dnd_drag_threshold := 8
  resolution := -1
  font_name := Option.some "Sans 12"
  font_dpi := -1
  xft_hinting := -1
  xft_antialias := -1
  xft_hint_style := Option.none
  xft_rgba := Option.none
  long_press_duration := 500
  last_fontconfig_timestamp := 0
  password_hint_time := 0
  unscaled_font_dpi := -1

/-- The pure computation inside `settings_update_font_options`: the
font-options bundle derived from the current store state.  Local variables
are initialized as in the C function (`hint_style = CAIRO_HINT_STYLE_NONE`,
`antialias_mode = CAIRO_ANTIALIAS_GRAY`,
`subpixel_order = CAIRO_SUBPIXEL_ORDER_DEFAULT`) and conditionally
reassigned; an unrecognized string leaves the initial value in place. -/
def computeFontOptions (s : ClutterSettings) : FontOptions :=
  let hint_style : CairoHintStyle :=
    if 0 ≤ s.xft_hinting ∧ s.xft_hint_style = Option.none then
      CairoHintStyle.none
    else
      match s.xft_hint_style with
      | Option.some str =>
          if str = "hintnone" then CairoHintStyle.none
          else if str = "hintslight" then CairoHintStyle.slight
          else if str = "hintmedium" then CairoHintStyle.medium
          else if str = "hintfull" then CairoHintStyle.full
          else CairoHintStyle.none
      | Option.none => CairoHintStyle.none
  let subpixel_order : CairoSubpixelOrder :=
    match s.xft_rgba with
    | Option.some str =>
        if str = "rgb" then CairoSubpixelOrder.rgb
        else if str = "bgr" then CairoSubpixelOrder.bgr
        else if str = "vrgb" then CairoSubpixelOrder.vrgb
        else if str = "vbgr" then CairoSubpixelOrder.vbgr
        else CairoSubpixelOrder.default
    | Option.none => CairoSubpixelOrder.default
  let antialias_mode : CairoAntialias :=
    if 0 ≤ s.xft_antialias ∧ s.xft_antialias = 0 then CairoAntialias.none
    else if subpixel_order ≠ CairoSubpixelOrder.default then CairoAntialias.subpixel
    else if 0 ≤ s.xft_antialias then CairoAntialias.gray
    else CairoAntialias.gray
  { hintMetrics := CairoHintMetrics.on
    hintStyle := hint_style
    subpixelOrder := subpixel_order
    antialias := antialias_mode }

/-- `settings_update_font_options`: returns early when no backend is attached,
otherwise hands the recomputed bundle to the backend. -/
def settingsUpdateFontOptions (s : ClutterSettings) : List Event :=
  if s.backendAttached then [Event.setFontOptions (computeFontOptions s)] else []

/-- `settings_update_font_name`: emits the backend "font-changed" signal if a
backend is attached. -/
def settingsUpdateFontName (s : ClutterSettings) : List Event :=
  if s.backendAttached then [Event.fontChanged] else []

/-- `settings_update_resolution`: recomputes `self->resolution` from
`self->font_dpi`, applies the `GDK_DPI_SCALE` environment override (`env` is
the result of `g_getenv`, NULL when the variable is unset), and emits the
backend "resolution-changed" signal if a backend is attached. -/
def settingsUpdateResolution (env : Option String) (s : ClutterSettings) :
    ClutterSettings × List Event :=
  let base : ℚ := if 0 < s.font_dpi then (s.font_dpi : ℚ) / 1024 else 96
  let res : ℚ :=
    match env with
    | Option.none => base
    | Option.some scale_env =>
        let scale := gAsciiStrtod scale_env
        if scale ≠ 0 ∧ 0 < base then base * scale else base
  let s' := { s with resolution := res }
  (s', if s'.backendAttached then [Event.resolutionChanged] else [])

/-- `clutter_settings_set_property`: one property store, returning the new
state and the events emitted by the update helper it calls.  `env` is the
value of the `GDK_DPI_SCALE` environment variable (read inside
`settings_update_resolution`). -/
def clutterSettingsSetProperty (env : Option String) (p : PropId) (v : GValue)
    (s : ClutterSettings) : ClutterSettings × List Event :=
  match p with
  | PropId.doubleClickTime => ({ s with double_click_time := gValueGetInt v }, [])
  | PropId.doubleClickDistance => ({ s with double_click_distance := gValueGetInt v }, [])
  | PropId.dndDragThreshold => ({ s with dnd_drag_threshold := gValueGetInt v }, [])
  | PropId.fontName =>
      let s' := { s with font_name := gValueDupString v }
      (s', settingsUpdateFontName s')
  | PropId.fontAntialias =>
      let s' := { s with xft_antialias := gValueGetInt v }
      (s', settingsUpdateFontOptions s')
  | PropId.fontDpi =>
      let s' := { s with font_dpi := gValueGetInt v }
      settingsUpdateResolution env s'
  | PropId.fontHinting =>
      let s' := { s with xft_hinting := gValueGetInt v }
      (s', settingsUpdateFontOptions s')
  | PropId.fontHintStyle =>
      let s' := { s with xft_hint_style := gValueDupString v }
      (s', settingsUpdateFontOptions s')
  | PropId.fontRgba =>
      let s' := { s with xft_rgba := gValueDupString v }
      (s', settingsUpdateFontOptions s')
  | PropId.longPressDuration => ({ s with long_press_duration := gValueGetInt v }, [])
  | PropId.passwordHintTime => ({ s with password_hint_time := gValueGetUint v }, [])
  | PropId.unscaledFontDpi =>
      let s' := { s with font_dpi := gValueGetInt v }
      settingsUpdateResolution env s'

/-- `clutter_settings_get_property`; `PROP_UNSCALED_FONT_DPI` is write-only,
so reading it hits `G_OBJECT_WARN_INVALID_PROPERTY_ID` and produces no value. -/
def clutterSettingsGetProperty (p : PropId) (s : ClutterSettings) : Option GValue :=
  match p with
  | PropId.doubleClickTime => Option.some (GValue.int s.double_click_time)
  | PropId.doubleClickDistance => Option.some (GValue.int s.double_click_distance)
  | PropId.dndDragThreshold => Option.some (GValue.int s.dnd_drag_threshold)
  | PropId.fontName => Option.some (GValue.str s.font_name)
  | PropId.fontAntialias => Option.some (GValue.int s.xft_antialias)
  | PropId.fontDpi => Option.some (GValue.int (cTrunc (s.resolution * 1024)))
  | PropId.fontHinting => Option.some (GValue.int s.xft_hinting)
  | PropId.fontHintStyle => Option.some (GValue.str s.xft_hint_style)
  | PropId.fontRgba => Option.some (GValue.str s.xft_rgba)
  | PropId.longPressDuration => Option.some (GValue.int s.long_press_duration)
  | PropId.passwordHintTime => Option.some (GValue.uint s.password_hint_time)
  | PropId.unscaledFontDpi => Option.none

/-- `clutter_settings_dispatch_properties_changed`: chains up to the GObject
implementation (which emits one `notify` per changed pspec, in order) and then
emits the backend "settings-changed" signal once, if a backend is attached. -/
def clutterSettingsDispatchPropertiesChanged (s : ClutterSettings)
    (pspecs : List PropId) : List Event :=
  pspecs.map Event.notify ++
    (if s.backendAttached then [Event.settingsChanged] else [])

/-- The property-store loop inside `g_object_set`: each property is stored in
argument order via `clutter_settings_set_property`, with the emitted events
concatenated in order. -/
def setPropertyList (env : Option String) (props : List (PropId × GValue))
    (s : ClutterSettings) : ClutterSettings × List Event :=
  match props with
  | [] => (s, [])
  | pv :: rest =>
      let r1 := clutterSettingsSetProperty env pv.1 pv.2 s
      let r2 := setPropertyList env rest r1.1
      (r2.1, r1.2 ++ r2.2)

/-- `g_object_set` over a batch of distinct properties: the notification queue
is frozen, every property is stored in order, and on thaw
`dispatch_properties_changed` runs exactly once with all changed pspecs. -/
def gObjectSet (env : Option String) (props : List (PropId × GValue))
    (s : ClutterSettings) : ClutterSettings × List Event :=
  let r := setPropertyList env props s
  (r.1, r.2 ++ clutterSettingsDispatchPropertiesChanged r.1 (props.map Prod.fst))

/-- The `FontSettings` output struct of `get_font_gsettings`. -/
structure FontSettings where
  cairo_antialias : CairoAntialias
  clutter_font_antialias : Int
  cairo_hint_style : CairoHintStyle
  clutter_font_hint_style : Option String
  cairo_subpixel_order : CairoSubpixelOrder
  clutter_font_subpixel_order : Option String
  deriving DecidableEq

/-- The `hintings[]` table of `get_font_gsettings` together with its bound
check `i < G_N_ELEMENTS (hintings)`.  The C index `i` is a `guint` assigned
from the `gint` result of `g_settings_get_enum`, so a negative enum value is
reinterpreted as a huge unsigned index and is out of range; hence the lookup
succeeds exactly on 0, 1, 2, 3. -/
def hintingTable (i : Int) : Option (CairoHintStyle × String) :=
  if i = 0 then Option.some (CairoHintStyle.none, "hintnone")
  else if i = 1 then Option.some (CairoHintStyle.slight, "hintslight")
  else if i = 2 then Option.some (CairoHintStyle.medium, "hintmedium")
  else if i = 3 then Option.some (CairoHintStyle.full, "hintfull")
  else Option.none

/-- The `antialiasings[]` table of `get_font_gsettings` with its bound check
(same `guint` reinterpretation as `hintingTable`). -/
def antialiasTable (i : Int) : Option (CairoAntialias × Int) :=
  if i = 0 then Option.some (CairoAntialias.none, 0)
  else if i = 1 then Option.some (CairoAntialias.gray, 1)
  else if i = 2 then Option.some (CairoAntialias.subpixel, 1)
  else Option.none

/-- The `rgba_orders[]` table of `get_font_gsettings` with its bound check;
index 0 ("rgba") maps to rgb like index 1, preserving the documented
ambiguity of the original table. -/
def rgbaOrderTable (i : Int) : Option (CairoSubpixelOrder × String) :=
  if i = 0 then Option.some (CairoSubpixelOrder.rgb, "rgb")
  else if i = 1 then Option.some (CairoSubpixelOrder.rgb, "rgb")
  else if i = 2 then Option.some (CairoSubpixelOrder.bgr, "bgr")
  else if i = 3 then Option.some (CairoSubpixelOrder.vrgb, "vrgb")
  else if i = 4 then Option.some (CairoSubpixelOrder.vbgr, "vbgr")
  else Option.none

/-- `get_font_gsettings`: reads the three font enums from the platform store,
translates each through its table (falling back to the default/unset pair when
the index is out of range), then forces the subpixel-order label to "none"
whenever the resolved cairo antialias mode is GRAY. -/
def getFontGSettings (store : GSettingsStore) : FontSettings :=
  let h := hintingTable (store.getEnum "font-hinting")
  let a := antialiasTable (store.getEnum "font-antialiasing")
  let r := rgbaOrderTable (store.getEnum "font-rgba-order")
  let chs : CairoHintStyle :=
    match h with
    | Option.some p => p.1
    | Option.none => CairoHintStyle.default
  let cfhs : Option String :=
    match h with
    | Option.some p => Option.some p.2
    | Option.none => Option.none
  let caa : CairoAntialias :=
    match a with
    | Option.some p => p.1
    | Option.none => CairoAntialias.default
  let cfa : Int :=
    match a with
    | Option.some p => p.2
    | Option.none => -1
  let cso : CairoSubpixelOrder :=
    match r with
    | Option.some p => p.1
    | Option.none => CairoSubpixelOrder.default
  let cfso0 : Option String :=
    match r with
    | Option.some p => Option.some p.2
    | Option.none => Option.none
  let cfso : Option String :=
    if caa = CairoAntialias.gray then Option.some "none" else cfso0
  { cairo_antialias := caa
    clutter_font_antialias := cfa
    cairo_hint_style := chs
    clutter_font_hint_style := cfhs
    cairo_subpixel_order := cso
    clutter_font_subpixel_order := cfso }

/-- `init_font_options`: the initial font-options push done when the font
schema is found (a fresh `cairo_font_options_t` has hint-metrics DEFAULT, and
this path does not set hint metrics). -/
def initFontOptions (store : GSettingsStore) : List Event :=
  let fs := getFontGSettings store
  [Event.setFontOptions
    { hintMetrics := CairoHintMetrics.default
      hintStyle := fs.cairo_hint_style
      subpixelOrder := fs.cairo_subpixel_order
      antialias := fs.cairo_antialias }]

/-- `sync_mouse_options`: reads the two mouse keys and stores them through one
`g_object_set` batch. -/
def syncMouseOptions (env : Option String) (store : GSettingsStore)
    (s : ClutterSettings) : ClutterSettings × List Event :=
  gObjectSet env
    [(PropId.doubleClickTime, GValue.int (store.getInt "double-click")),
     (PropId.dndDragThreshold, GValue.int (store.getInt "drag-threshold"))] s

/-- `on_font_settings_change_event`: re-reads the full font key set,
translates it, and applies it through one `g_object_set` batch of four
properties; always returns FALSE ("not yet handled"). -/
def onFontSettingsChangeEvent (env : Option String) (store : GSettingsStore)
    (s : ClutterSettings) : (ClutterSettings × List Event) × Bool :=
  let fs := getFontGSettings store
  let hinting : Int := if fs.cairo_hint_style = CairoHintStyle.none then 0 else 1
  (gObjectSet env
    [(PropId.fontHinting, GValue.int hinting),
     (PropId.fontHintStyle, GValue.str fs.clutter_font_hint_style),
     (PropId.fontAntialias, GValue.int fs.clutter_font_antialias),
     (PropId.fontRgba, GValue.str fs.clutter_font_subpixel_order)] s, false)

/-- `pointer_a11y_dwell_direction_from_setting`: translates the
`GDesktopMouseDwellDirection` enum read from the store (LEFT=0, RIGHT=1, UP=2,
DOWN=3 in `gdesktop-enums.h`); any other value falls through to NONE. -/
def pointerA11yDwellDirectionFromSetting (store : Option GSettingsStore)
    (key : String) : ClutterPointerA11yDwellDirection :=
  let d := gSettingsGetEnum store key
  if d = 0 then ClutterPointerA11yDwellDirection.left
  else if d = 1 then ClutterPointerA11yDwellDirection.right
  else if d = 2 then ClutterPointerA11yDwellDirection.up
  else if d = 3 then ClutterPointerA11yDwellDirection.down
  else ClutterPointerA11yDwellDirection.none

/-- `sync_pointer_a11y_settings`: reads the seat's current bundle, rebuilds
every field from the mouse-accessibility store (the store pointer is used
unconditionally — there is no NULL check in the C function), and returns the
bundle pushed onto the seat.  Mode enum: `G_DESKTOP_MOUSE_DWELL_MODE_WINDOW`
is 0 in `gdesktop-enums.h`.  The delays are converted from seconds to
milliseconds with a C `(int)` cast. -/
def syncPointerA11ySettings (store : Option GSettingsStore)
    (seatCurrent : ClutterPointerA11ySettings) : ClutterPointerA11ySettings :=
  let controls0 : Nat := 0
  let controls1 : Nat :=
    if gSettingsGetBoolean store "secondary-click-enabled" then controls0 ||| 1
    else controls0
  let controls2 : Nat :=
    if gSettingsGetBoolean store "dwell-click-enabled" then controls1 ||| 2
    else controls1
  { seatCurrent with
    controls := controls2
    secondary_click_delay := cTrunc (1000 * gSettingsGetDouble store "secondary-click-time")
    dwell_delay := cTrunc (1000 * gSettingsGetDouble store "dwell-time")
    dwell_threshold := gSettingsGetInt store "dwell-threshold"
    dwell_mode :=
      if gSettingsGetEnum store "dwell-mode" = 0 then ClutterPointerA11yDwellMode.window
      else ClutterPointerA11yDwellMode.gesture
    dwell_gesture_single := pointerA11yDwellDirectionFromSetting store "dwell-gesture-single"
    dwell_gesture_double := pointerA11yDwellDirectionFromSetting store "dwell-gesture-double"
    dwell_gesture_drag := pointerA11yDwellDirectionFromSetting store "dwell-gesture-drag"
    dwell_gesture_secondary := pointerA11yDwellDirectionFromSetting store "dwell-gesture-secondary" }

/-- `clutter_settings_ensure_pointer_a11y_settings` /
`sync_pointer_a11y_settings` as an observable operation: the trace of calls
it makes on the seat (it always ends with exactly one
`clutter_seat_set_pointer_a11y_settings`). -/
def clutterSettingsEnsurePointerA11ySettings (store : Option GSettingsStore)
    (seatCurrent : ClutterPointerA11ySettings) : List Event :=
  [Event.seatSet (syncPointerA11ySettings store seatCurrent)]

/-- The platform schema source (`g_settings_schema_source_lookup` followed by
`g_settings_new_full`): maps a schema name to the opened store when the schema
exists, NULL otherwise. -/
structure SchemaSource where
  lookup : String → Option GSettingsStore

/-- `load_initial_settings`: looks up the three schemas; a missing schema
produces only a `g_warning` (note: the C code formats the mouse path, not the
a11y path, into the third warning) and leaves the corresponding store pointer
NULL.  A found font schema triggers `init_font_options`; a found mouse schema
triggers `sync_mouse_options`; the a11y schema is only opened and subscribed,
with no initial sync.  Change-event subscriptions are modelled by the
stand-alone handler functions above. -/
def loadInitialSettings (env : Option String) (source : SchemaSource)
    (s : ClutterSettings) : ClutterSettings × List Event :=
  let fontPath := "org.gnome.desktop.interface"
  let mousePath := "org.gnome.desktop.peripherals.mouse"
  let a11yPath := "org.gnome.desktop.a11y.mouse"
  let r1 : ClutterSettings × List Event :=
    match source.lookup fontPath with
    | Option.none => (s, [Event.warning ("Failed to find schema: " ++ fontPath)])
    | Option.some store =>
        ({ s with fontSettings := Option.some store }, initFontOptions store)
  let r2 : ClutterSettings × List Event :=
    match source.lookup mousePath with
    | Option.none => (r1.1, [Event.warning ("Failed to find schema: " ++ mousePath)])
    | Option.some store =>
        syncMouseOptions env store { r1.1 with mouseSettings := Option.some store }
  let r3 : ClutterSettings × List Event :=
    match source.lookup a11yPath with
    | Option.none => (r2.1, [Event.warning ("Failed to find schema: " ++ mousePath)])
    | Option.some store =>
        ({ r2.1 with mouseA11ySettings := Option.some store }, [])
  (r3.1, r1.2 ++ r2.2 ++ r3.2)

/-- `_clutter_settings_set_backend`: attaches the backend and loads the
initial settings. -/
def clutterSettingsSetBackend (env : Option String) (source : SchemaSource)
    (s : ClutterSettings) : ClutterSettings × List Event :=
  loadInitialSettings env source { s with backendAttached := true }

/-- A constant platform store whose every enum key reads the same value. -/
def constEnumStore (e : Int) : GSettingsStore where
  getEnum := fun _ => e
  getInt := fun _ => 0
  getDouble := fun _ => 0
  getBool := fun _ => false

/-- C5: for every platform hinting enum index, the translator maps indices
0, 1, 2, 3 to `"hintnone"`, `"hintslight"`, `"hintmedium"`, `"hintfull"` with
the matching cairo hint style, and every out-of-range index (including a
negative `gint` reinterpreted as a huge `guint`) to the unset/default result. -/
theorem c5_hinting_translation (store : GSettingsStore) (i : Int)
    (h : store.getEnum "font-hinting" = i) :
    (i = 0 → (getFontGSettings store).cairo_hint_style = CairoHintStyle.none ∧
      (getFontGSettings store).clutter_font_hint_style = Option.some "hintnone") ∧
    (i = 1 → (getFontGSettings store).cairo_hint_style = CairoHintStyle.slight ∧
      (getFontGSettings store).clutter_font_hint_style = Option.some "hintslight") ∧
    (i = 2 → (getFontGSettings store).cairo_hint_style = CairoHintStyle.medium ∧
      (getFontGSettings store).clutter_font_hint_style = Option.some "hintmedium") ∧
    (i = 3 → (getFontGSettings store).cairo_hint_style = CairoHintStyle.full ∧
      (getFontGSettings store).clutter_font_hint_style = Option.some "hintfull") ∧
    (¬ (0 ≤ i ∧ i < 4) → (getFontGSettings store).cairo_hint_style = CairoHintStyle.default ∧
      (getFontGSettings store).clutter_font_hint_style = Option.none) := by
  refine ⟨?_, ?_, ?_, ?_, ?_⟩ <;> intro hi
  · subst hi; simp [getFontGSettings, hintingTable, h]
  · subst hi; simp [getFontGSettings, hintingTable, h]
  · subst hi; simp [getFontGSettings, hintingTable, h]
  · subst hi; simp [getFontGSettings, hintingTable, h]
  · have h0 : i ≠ 0 := by omega
    have h1 : i ≠ 1 := by omega
    have h2 : i ≠ 2 := by omega
    have h3 : i ≠ 3 := by omega
    simp [getFontGSettings, hintingTable, h, h0, h1, h2, h3]

/-- Witness for C5 at the concrete in-range index 2 and out-of-range index 7. -/
theorem c5_hinting_translation_witness :
    (constEnumStore 2).getEnum "font-hinting" = 2 ∧
    (getFontGSettings (constEnumStore 2)).cairo_hint_style = CairoHintStyle.medium ∧
    (getFontGSettings (constEnumStore 2)).clutter_font_hint_style = Option.some "hintmedium" ∧
    (getFontGSettings (constEnumStore 7)).clutter_font_hint_style = Option.none :=
  ⟨rfl,
   ((c5_hinting_translation (constEnumStore 2) 2 rfl).2.2.1 rfl).1,
   ((c5_hinting_translation (constEnumStore 2) 2 rfl).2.2.1 rfl).2,
   ((c5_hinting_translation (constEnumStore 7) 7 rfl).2.2.2.2 (by omega)).2⟩

/-- C6: for every platform antialiasing enum index, the translator maps 0 to
(disabled, 0), 1 to (grayscale, 1), 2 to (subpixel, 1) and every out-of-range
index to (system default, -1); the flag is -1 exactly when the index is out of
range. -/
theorem c6_antialias_translation (store : GSettingsStore) (i : Int)
    (h : store.getEnum "font-antialiasing" = i) :
    (i = 0 → (getFontGSettings store).cairo_antialias = CairoAntialias.none ∧
      (getFontGSettings store).clutter_font_antialias = 0) ∧
    (i = 1 → (getFontGSettings store).cairo_antialias = CairoAntialias.gray ∧
      (getFontGSettings store).clutter_font_antialias = 1) ∧
    (i = 2 → (getFontGSettings store).cairo_antialias = CairoAntialias.subpixel ∧
      (getFontGSettings store).clutter_font_antialias = 1) ∧
    (¬ (0 ≤ i ∧ i < 3) → (getFontGSettings store).cairo_antialias = CairoAntialias.default ∧
      (getFontGSettings store).clutter_font_antialias = -1) ∧
    ((getFontGSettings store).clutter_font_antialias = -1 ↔ ¬ (0 ≤ i ∧ i < 3)) := by
  have main : (i = 0 → (getFontGSettings store).cairo_antialias = CairoAntialias.none ∧
      (getFontGSettings store).clutter_font_antialias = 0) ∧
    (i = 1 → (getFontGSettings store).cairo_antialias = CairoAntialias.gray ∧
      (getFontGSettings store).clutter_font_antialias = 1) ∧
    (i = 2 → (getFontGSettings store).cairo_antialias = CairoAntialias.subpixel ∧
      (getFontGSettings store).clutter_font_antialias = 1) ∧
    (¬ (0 ≤ i ∧ i < 3) → (getFontGSettings store).cairo_antialias = CairoAntialias.default ∧
      (getFontGSettings store).clutter_font_antialias = -1) := by
    refine ⟨?_, ?_, ?_, ?_⟩ <;> intro hi
    · subst hi; simp [getFontGSettings, antialiasTable, h]
    · subst hi; simp [getFontGSettings, antialiasTable, h]
    · subst hi; simp [getFontGSettings, antialiasTable, h]
    · have h0 : i ≠ 0 := by omega
      have h1 : i ≠ 1 := by omega
      have h2 : i ≠ 2 := by omega
      simp [getFontGSettings, antialiasTable, h, h0, h1, h2]
  refine ⟨main.1, main.2.1, main.2.2.1, main.2.2.2, ?_, ?_⟩
  · intro hflag
    by_contra hrange
    rcases hrange with ⟨h0, h3⟩
    interval_cases i
    · exact absurd hflag (by simp [(main.1 rfl).2])
    · exact absurd hflag (by simp [(main.2.1 rfl).2])
    · exact absurd hflag (by simp [(main.2.2.1 rfl).2])
  · intro hrange
    exact (main.2.2.2 hrange).2

/-- Witness for C6 at the concrete indices 2 (in range) and 3 (out of range). -/
theorem c6_antialias_translation_witness :
    (constEnumStore 2).getEnum "font-antialiasing" = 2 ∧
    (getFontGSettings (constEnumStore 2)).cairo_antialias = CairoAntialias.subpixel ∧
    (getFontGSettings (constEnumStore 2)).clutter_font_antialias = 1 ∧
    (getFontGSettings (constEnumStore 3)).clutter_font_antialias = -1 :=
  ⟨rfl,
   ((c6_antialias_translation (constEnumStore 2) 2 rfl).2.2.1 rfl).1,
   ((c6_antialias_translation (constEnumStore 2) 2 rfl).2.2.1 rfl).2,
   ((c6_antialias_translation (constEnumStore 3) 3 rfl).2.2.2.1 (by omega)).2⟩

/-- A platform store reading grayscale antialiasing (index 1) and raw
subpixel order rgb (index 1). -/
def grayRgbStore : GSettingsStore where
  getEnum := fun k => if k = "font-antialiasing" then 1 else if k = "font-rgba-order" then 1 else 0
  getInt := fun _ => 0
  getDouble := fun _ => 0
  getBool := fun _ => false

/-- C4: whenever the resolved antialiasing mode is grayscale, the translator
forces the subpixel-order label to "none", overriding the table lookup. -/
theorem c4_gray_forces_subpixel_none (store : GSettingsStore)
    (h : (getFontGSettings store).cairo_antialias = CairoAntialias.gray) :
    (getFontGSettings store).clutter_font_subpixel_order = Option.some "none" := by
  simp only [getFontGSettings] at h ⊢
  rw [if_pos h]

/-- Witness for C4: a platform read with grayscale antialiasing and a raw
"rgb" subpixel order still outputs the label "none". -/
theorem c4_gray_forces_subpixel_none_witness :
    (getFontGSettings grayRgbStore).cairo_antialias = CairoAntialias.gray ∧
    (getFontGSettings grayRgbStore).clutter_font_subpixel_order = Option.some "none" ∧
    rgbaOrderTable (grayRgbStore.getEnum "font-rgba-order") =
      Option.some (CairoSubpixelOrder.rgb, "rgb") :=
  ⟨rfl, c4_gray_forces_subpixel_none grayRgbStore rfl, rfl⟩
/-- Truncation toward zero agrees with the identity on integer rationals. -/
theorem cTrunc_intCast (n : Int) : cTrunc ((n : ℚ)) = n := by
  unfold cTrunc
  by_cases hn : (0:ℚ) ≤ (n:ℚ)
  · rw [if_pos hn, Int.floor_intCast]
  · rw [if_neg hn, ← Int.cast_neg, Int.floor_intCast, neg_neg]

/-- The strtod model parses "2.0" to the rational 2. -/
theorem gAsciiStrtod_two : gAsciiStrtod "2.0" = 2 := by
  have h : strtodScan "2.0" =
      { neg := false, ipDigits := ['2'], fpDigits := ['0'], exp := 0 } := by decide
  simp [gAsciiStrtod, h, digitsVal]

/-- The strtod model returns 0 on the unparseable string "abc". -/
theorem gAsciiStrtod_abc : gAsciiStrtod "abc" = 0 := by
  have h : strtodScan "abc" =
      { neg := false, ipDigits := [], fpDigits := [], exp := 0 } := by decide
  simp [gAsciiStrtod, h]

/-- Helper: the resolution computed by `settings_update_resolution` as a
function of the stored DPI and the environment override. -/
theorem settingsUpdateResolution_resolution (env : Option String)
    (s : ClutterSettings) :
    (settingsUpdateResolution env s).1.resolution =
      (match env with
       | Option.none => if 0 < s.font_dpi then (s.font_dpi : ℚ) / 1024 else 96
       | Option.some scale_env =>
           if gAsciiStrtod scale_env = 0 then
             (if 0 < s.font_dpi then (s.font_dpi : ℚ) / 1024 else 96)
           else
             (if 0 < s.font_dpi then (s.font_dpi : ℚ) / 1024 else 96) *
               gAsciiStrtod scale_env) := by
  have hbase : (0:ℚ) < (if 0 < s.font_dpi then (s.font_dpi : ℚ) / 1024 else 96) := by
    by_cases hd : 0 < s.font_dpi
    · rw [if_pos hd]
      apply div_pos
      · exact_mod_cast hd
      · norm_num
    · rw [if_neg hd]; norm_num
  cases env with
  | none => simp [settingsUpdateResolution]
  | some scale_env =>
      simp only [settingsUpdateResolution]
      by_cases hscale : gAsciiStrtod scale_env = 0
      · simp [hscale]
      · simp only [ne_eq, hscale, not_false_eq_true, true_and, if_neg hscale]
        rw [if_pos hbase]
        simp

/-- C2: writing any integer dpi to font-dpi or its unscaled alias recomputes
resolution as dpi/1024 when dpi is positive and 96 otherwise, multiplied by
the parsed environment scale factor when one is configured; a zero (hence
also an unparseable, since `g_ascii_strtod` returns 0 then) factor leaves the
computed resolution unchanged. -/
theorem c2_resolution_formula (env : Option String) (dpi : Int)
    (s : ClutterSettings) (p : PropId)
    (hp : p = PropId.fontDpi ∨ p = PropId.unscaledFontDpi) :
    (clutterSettingsSetProperty env p (GValue.int dpi) s).1.resolution =
      (match env with
       | Option.none => if 0 < dpi then (dpi : ℚ) / 1024 else 96
       | Option.some scale_env =>
           if gAsciiStrtod scale_env = 0 then
             (if 0 < dpi then (dpi : ℚ) / 1024 else 96)
           else
             (if 0 < dpi then (dpi : ℚ) / 1024 else 96) * gAsciiStrtod scale_env) := by
  rcases hp with h | h <;> subst h <;>
    simp only [clutterSettingsSetProperty, settingsUpdateResolution_resolution, gValueGetInt]

/-- Witness for C2: DPI 98304 with scale override "2.0" yields resolution
192; with the unparseable override "abc" the factor parses to 0 and the
resolution stays 96. -/
theorem c2_resolution_formula_witness :
    (clutterSettingsSetProperty (Option.some "2.0") PropId.fontDpi
        (GValue.int 98304) clutterSettingsInit).1.resolution = 192 ∧
    (clutterSettingsSetProperty (Option.some "abc") PropId.fontDpi
        (GValue.int 98304) clutterSettingsInit).1.resolution = 96 := by
  constructor
  · rw [c2_resolution_formula (Option.some "2.0") 98304 clutterSettingsInit
      PropId.fontDpi (Or.inl rfl)]
    simp [gAsciiStrtod_two]
    norm_num
  · rw [c2_resolution_formula (Option.some "abc") 98304 clutterSettingsInit
      PropId.fontDpi (Or.inl rfl)]
    simp [gAsciiStrtod_abc]
    norm_num

/-- C9: the deprecated unscaled-font-dpi property writes the same underlying
DPI field and triggers the same resolution recomputation as font-dpi, leaving
the store in an identical state with an identical emitted trace. -/
theorem c9_unscaled_font_dpi_alias (env : Option String) (v : Int)
    (s : ClutterSettings) :
    clutterSettingsSetProperty env PropId.unscaledFontDpi (GValue.int v) s =
      clutterSettingsSetProperty env PropId.fontDpi (GValue.int v) s := rfl

/-- C10: reading font-dpi returns the derived resolution multiplied by 1024
and truncated: -1024 before any DPI write (resolution is initialized to -1),
the written value d back when d is positive and no scale override is
configured, and trunc(d * s) under a configured override parsing to a nonzero
factor s. -/
theorem c10_font_dpi_readback :
    clutterSettingsGetProperty PropId.fontDpi clutterSettingsInit =
      Option.some (GValue.int (-1024)) ∧
    (∀ (d : Int) (s : ClutterSettings), 0 < d →
      clutterSettingsGetProperty PropId.fontDpi
          ((clutterSettingsSetProperty Option.none PropId.fontDpi
              (GValue.int d) s).1) =
        Option.some (GValue.int d)) ∧
    (∀ (d : Int) (s : ClutterSettings) (scale_env : String), 0 < d →
      gAsciiStrtod scale_env ≠ 0 →
      clutterSettingsGetProperty PropId.fontDpi
          ((clutterSettingsSetProperty (Option.some scale_env) PropId.fontDpi
              (GValue.int d) s).1) =
        Option.some (GValue.int (cTrunc ((d : ℚ) * gAsciiStrtod scale_env)))) := by
  refine ⟨?_, ?_, ?_⟩
  · simp [clutterSettingsGetProperty, clutterSettingsInit, cTrunc]
  · intro d s hd
    simp only [clutterSettingsGetProperty, clutterSettingsSetProperty]
    rw [settingsUpdateResolution_resolution]
    simp only [gValueGetInt]
    rw [if_pos hd]
    have harg : (d : ℚ) / 1024 * 1024 = (d : ℚ) := by
      field_simp
    rw [harg, cTrunc_intCast]
  · intro d s scale_env hd hscale
    simp only [clutterSettingsGetProperty, clutterSettingsSetProperty]
    rw [settingsUpdateResolution_resolution]
    simp only [gValueGetInt]
    rw [if_neg hscale, if_pos hd]
    have harg : (d : ℚ) / 1024 * gAsciiStrtod scale_env * 1024 =
        (d : ℚ) * gAsciiStrtod scale_env := by
      field_simp
    rw [harg]

/-- Witness for C10 at DPI 98304: read-back is 98304 without an override and
trunc(98304 * 2) under the override "2.0". -/
theorem c10_font_dpi_readback_witness :
    (0 : Int) < 98304 ∧ gAsciiStrtod "2.0" ≠ 0 ∧
    clutterSettingsGetProperty PropId.fontDpi
        ((clutterSettingsSetProperty Option.none PropId.fontDpi
            (GValue.int 98304) clutterSettingsInit).1) =
      Option.some (GValue.int 98304) ∧
    clutterSettingsGetProperty PropId.fontDpi
        ((clutterSettingsSetProperty (Option.some "2.0") PropId.fontDpi
            (GValue.int 98304) clutterSettingsInit).1) =
      Option.some (GValue.int (cTrunc ((98304 : ℚ) * gAsciiStrtod "2.0"))) := by
  have h2 : gAsciiStrtod "2.0" ≠ 0 := by rw [gAsciiStrtod_two]; norm_num
  exact ⟨by norm_num, h2,
    c10_font_dpi_readback.2.1 98304 clutterSettingsInit (by norm_num),
    c10_font_dpi_readback.2.2 98304 clutterSettingsInit "2.0" (by norm_num) h2⟩

/-- The states reachable by the public mutation surface of the settings
object: the freshly initialized instance, any property store, backend
attachment and the initial settings load. -/
inductive Reachable : ClutterSettings → Prop where
  | init : Reachable clutterSettingsInit
  | step (env : Option String) (p : PropId) (v : GValue) {s : ClutterSettings} :
      Reachable s → Reachable (clutterSettingsSetProperty env p v s).1
  | attach (env : Option String) (source : SchemaSource) {s : ClutterSettings} :
      Reachable s → Reachable (clutterSettingsSetBackend env source s).1

/-- The state after explicitly writing the empty string to font-name. -/
def emptyFontNameState : ClutterSettings :=
  (clutterSettingsSetProperty Option.none PropId.fontName
    (GValue.str (Option.some "")) clutterSettingsInit).1

/-- Counterexample to C8: the state reached by a single font-name write of ""
is reachable and stores the empty string — the store does not fall back to
"Sans 12" on an empty write, so font-name is not non-empty in every reachable
state. -/
theorem c8_counterexample :
    Reachable emptyFontNameState ∧ emptyFontNameState.font_name = Option.some "" :=
  ⟨Reachable.step Option.none PropId.fontName (GValue.str (Option.some ""))
      Reachable.init, rfl⟩

/-- C8 as amended: at initialization the font-name is the compiled-in,
non-empty default "Sans 12"; a font-name property write stores the provided
string (or NULL) verbatim, with no fallback. -/
theorem c8_amended_font_name_default :
    clutterSettingsInit.font_name = Option.some "Sans 12" ∧
    "Sans 12" ≠ "" ∧
    (∀ (env : Option String) (v : GValue) (s : ClutterSettings),
      (clutterSettingsSetProperty env PropId.fontName v s).1.font_name =
        gValueDupString v) :=
  ⟨rfl, by decide, fun env v s => rfl⟩

/-- The reverse hinting map applied to an explicit hint-style string by
`settings_update_font_options` (an unrecognized string leaves the initial
CAIRO_HINT_STYLE_NONE in place). -/
def mapHintStyleString (str : String) : CairoHintStyle :=
  if str = "hintnone" then CairoHintStyle.none
  else if str = "hintslight" then CairoHintStyle.slight
  else if str = "hintmedium" then CairoHintStyle.medium
  else if str = "hintfull" then CairoHintStyle.full
  else CairoHintStyle.none

/-- A settings instance with an attached backend and otherwise initial state. -/
def clutterAttachedInit : ClutterSettings :=
  { clutterSettingsInit with backendAttached := true }

/-- Whether a trace contains a font-options handoff to the backend
(a `clutter_backend_set_font_options` call). -/
def containsFontOptionsHandoff (evs : List Event) : Bool :=
  evs.any fun e =>
    match e with
    | Event.setFontOptions _ => true
    | _ => false

/-- Counterexample to C3: with a backend attached, writing font-dpi emits only
the "resolution-changed" signal and never hands a recomputed font-options
bundle to the backend — setting DPI does not recompute the font-options
bundle, contrary to the claim's trigger list. -/
theorem c3_counterexample :
    (clutterSettingsSetProperty Option.none PropId.fontDpi (GValue.int 98304)
        clutterAttachedInit).2 = [Event.resolutionChanged] ∧
    containsFontOptionsHandoff
        (clutterSettingsSetProperty Option.none PropId.fontDpi (GValue.int 98304)
          clutterAttachedInit).2 = false :=
  ⟨rfl, rfl⟩

/-- C3 as amended: with a backend attached, setting any of antialias, hinting,
hint-style or subpixel-order (but not DPI, which recomputes only the
resolution) hands the backend exactly one recomputed font-options bundle, and
for every store state the recomputed bundle satisfies: hint-metrics always on;
hint-style none when hinting is non-negative and no hint-style string is set,
else the cairo style mapped from the hint-style string; antialias none when
antialias is explicitly 0, else subpixel when a non-default subpixel order is
in effect, else grayscale when antialias is non-negative, else the toolkit
default grayscale. -/
theorem c3_amended_font_options_recompute (env : Option String) (v : GValue)
    (s : ClutterSettings) (p : PropId)
    (hp : p = PropId.fontAntialias ∨ p = PropId.fontHinting ∨
      p = PropId.fontHintStyle ∨ p = PropId.fontRgba)
    (hb : s.backendAttached = true) :
    (clutterSettingsSetProperty env p v s).2 =
      [Event.setFontOptions
        (computeFontOptions (clutterSettingsSetProperty env p v s).1)] ∧
    (∀ t : ClutterSettings,
      (computeFontOptions t).hintMetrics = CairoHintMetrics.on ∧
      (0 ≤ t.xft_hinting → t.xft_hint_style = Option.none →
        (computeFontOptions t).hintStyle = CairoHintStyle.none) ∧
      (∀ str, t.xft_hint_style = Option.some str →
        (computeFontOptions t).hintStyle = mapHintStyleString str) ∧
      (t.xft_antialias = 0 →
        (computeFontOptions t).antialias = CairoAntialias.none) ∧
      (t.xft_antialias ≠ 0 →
        (computeFontOptions t).subpixelOrder ≠ CairoSubpixelOrder.default →
        (computeFontOptions t).antialias = CairoAntialias.subpixel) ∧
      (0 ≤ t.xft_antialias → t.xft_antialias ≠ 0 →
        (computeFontOptions t).subpixelOrder = CairoSubpixelOrder.default →
        (computeFontOptions t).antialias = CairoAntialias.gray) ∧
      (t.xft_antialias < 0 →
        (computeFontOptions t).subpixelOrder = CairoSubpixelOrder.default →
        (computeFontOptions t).antialias = CairoAntialias.gray)) := by
  constructor
  · rcases hp with h | h | h | h <;> subst h <;>
      simp [clutterSettingsSetProperty, settingsUpdateFontOptions, hb]
  · intro t
    refine ⟨rfl, ?_, ?_, ?_, ?_, ?_, ?_⟩
    · intro hh hs
      simp [computeFontOptions, hs, hh]
    · intro str hs
      simp only [computeFontOptions, hs, mapHintStyleString]
      simp
    · intro ha
      simp [computeFontOptions, ha]
    · intro ha hso
      simp only [computeFontOptions] at hso ⊢
      rw [if_neg (by simp [ha]), if_pos hso]
    · intro ha0 hane hso
      simp only [computeFontOptions] at hso ⊢
      rw [if_neg (by simp [hane]), if_neg (by simp [hso]), if_pos ha0]
    · intro ha hso
      simp only [computeFontOptions] at hso ⊢
      have hne : ¬ (0 ≤ t.xft_antialias ∧ t.xft_antialias = 0) := by omega
      rw [if_neg hne, if_neg (by simp [hso]), if_neg (by omega)]

/-- Witness for C3 as amended: writing font-hint-style "hintfull" on the
attached initial state hands the backend one bundle with hint-metrics on and
hint style full. -/
theorem c3_amended_font_options_recompute_witness :
    clutterAttachedInit.backendAttached = true ∧
    (clutterSettingsSetProperty Option.none PropId.fontHintStyle
        (GValue.str (Option.some "hintfull")) clutterAttachedInit).2 =
      [Event.setFontOptions
        (computeFontOptions
          (clutterSettingsSetProperty Option.none PropId.fontHintStyle
            (GValue.str (Option.some "hintfull")) clutterAttachedInit).1)] ∧
    (computeFontOptions
        (clutterSettingsSetProperty Option.none PropId.fontHintStyle
          (GValue.str (Option.some "hintfull")) clutterAttachedInit).1).hintStyle =
      CairoHintStyle.full :=
  ⟨rfl,
   (c3_amended_font_options_recompute Option.none
      (GValue.str (Option.some "hintfull")) clutterAttachedInit
      PropId.fontHintStyle (Or.inr (Or.inr (Or.inl rfl))) rfl).1,
   by
    have h := (c3_amended_font_options_recompute Option.none
      (GValue.str (Option.some "hintfull")) clutterAttachedInit
      PropId.fontHintStyle (Or.inr (Or.inr (Or.inl rfl))) rfl).2
      ((clutterSettingsSetProperty Option.none PropId.fontHintStyle
        (GValue.str (Option.some "hintfull")) clutterAttachedInit).1)
    exact (h.2.2.1 "hintfull" rfl).trans (by decide)⟩

/-- Whether an event is a field-level backend update (font handoff or one of
the per-field signals), as opposed to a GObject notify or the aggregate
"settings-changed" signal. -/
def isFieldLevelEvent : Event → Bool
  | Event.notify _ => false
  | Event.settingsChanged => false
  | _ => true

/-- Every event of `settings_update_font_name` is field-level. -/
theorem settingsUpdateFontName_field_level (s : ClutterSettings) :
    ∀ e ∈ settingsUpdateFontName s, isFieldLevelEvent e = true := by
  unfold settingsUpdateFontName
  split <;> simp [isFieldLevelEvent]

/-- Every event of `settings_update_font_options` is field-level. -/
theorem settingsUpdateFontOptions_field_level (s : ClutterSettings) :
    ∀ e ∈ settingsUpdateFontOptions s, isFieldLevelEvent e = true := by
  unfold settingsUpdateFontOptions
  split <;> simp [isFieldLevelEvent]

/-- Every event of `settings_update_resolution` is field-level. -/
theorem settingsUpdateResolution_field_level (env : Option String)
    (s : ClutterSettings) :
    ∀ e ∈ (settingsUpdateResolution env s).2, isFieldLevelEvent e = true := by
  simp only [settingsUpdateResolution]
  split <;> simp [isFieldLevelEvent]

/-- A single property store never emits a notify or the aggregate signal. -/
theorem clutterSettingsSetProperty_field_level (env : Option String) (p : PropId)
    (v : GValue) (s : ClutterSettings) :
    ∀ e ∈ (clutterSettingsSetProperty env p v s).2, isFieldLevelEvent e = true := by
  cases p <;>
    simp only [clutterSettingsSetProperty] <;>
    first
      | (intro e he; simp at he)
      | exact settingsUpdateFontName_field_level _
      | exact settingsUpdateFontOptions_field_level _
      | exact settingsUpdateResolution_field_level _ _

/-- A single property store never detaches or attaches the backend. -/
theorem clutterSettingsSetProperty_backend (env : Option String) (p : PropId)
    (v : GValue) (s : ClutterSettings) :
    (clutterSettingsSetProperty env p v s).1.backendAttached = s.backendAttached := by
  cases p <;> simp [clutterSettingsSetProperty, settingsUpdateResolution]

/-- The property-store loop preserves backend attachment. -/
theorem setPropertyList_backend (env : Option String)
    (props : List (PropId × GValue)) :
    ∀ s, (setPropertyList env props s).1.backendAttached = s.backendAttached := by
  induction props with
  | nil => intro s; rfl
  | cons pv rest ih =>
      intro s
      simp only [setPropertyList]
      rw [ih, clutterSettingsSetProperty_backend]

/-- All events of the property-store loop are field-level. -/
theorem setPropertyList_field_level (env : Option String)
    (props : List (PropId × GValue)) :
    ∀ s, ∀ e ∈ (setPropertyList env props s).2, isFieldLevelEvent e = true := by
  induction props with
  | nil => intro s e he; simp [setPropertyList] at he
  | cons pv rest ih =>
      intro s e he
      simp only [setPropertyList, List.mem_append] at he
      rcases he with h | h
      · exact clutterSettingsSetProperty_field_level env pv.1 pv.2 s e h
      · exact ih _ e h

/-- A list of field-level events holds no aggregate signal. -/
theorem count_settingsChanged_zero (l : List Event)
    (h : ∀ e ∈ l, isFieldLevelEvent e = true) :
    l.count Event.settingsChanged = 0 := by
  rw [List.count_eq_zero]
  intro hmem
  have hf := h _ hmem
  simp [isFieldLevelEvent] at hf

/-- Notify events are never the aggregate signal. -/
theorem count_settingsChanged_map_notify (props : List (PropId × GValue)) :
    (props.map fun pv => Event.notify pv.1).count Event.settingsChanged = 0 := by
  rw [List.count_eq_zero]
  intro hmem
  simp [List.mem_map] at hmem

/-- C1: for every batch of property writes applied through one `g_object_set`
with a backend attached, the observable trace is some field-level backend
events, then the per-field notifications in write order, then exactly one
aggregate "settings-changed" signal (never one aggregate signal per field). -/
theorem c1_coalesced_notification (env : Option String)
    (props : List (PropId × GValue)) (s : ClutterSettings)
    (hb : s.backendAttached = true) :
    ∃ pre : List Event,
      (gObjectSet env props s).2 =
        pre ++ props.map (fun pv => Event.notify pv.1) ++ [Event.settingsChanged] ∧
      (∀ e ∈ pre, isFieldLevelEvent e = true) ∧
      ((gObjectSet env props s).2).count Event.settingsChanged = 1 := by
  have hbl := setPropertyList_backend env props s
  have htrace : (gObjectSet env props s).2 =
      (setPropertyList env props s).2 ++
        props.map (fun pv => Event.notify pv.1) ++ [Event.settingsChanged] := by
    simp only [gObjectSet, clutterSettingsDispatchPropertiesChanged]
    rw [hbl, hb]
    simp
  refine ⟨(setPropertyList env props s).2, htrace,
    setPropertyList_field_level env props s, ?_⟩
  rw [htrace]
  simp [List.count_append,
    count_settingsChanged_zero _ (setPropertyList_field_level env props s),
    count_settingsChanged_map_notify]

/-- Witness for C1: a three-field font batch on the attached initial state. -/
theorem c1_coalesced_notification_witness :
    clutterAttachedInit.backendAttached = true ∧
    ∃ pre : List Event,
      (gObjectSet Option.none
          [(PropId.fontHinting, GValue.int 1),
           (PropId.fontHintStyle, GValue.str (Option.some "hintfull")),
           (PropId.fontAntialias, GValue.int 1)] clutterAttachedInit).2 =
        pre ++ [Event.notify PropId.fontHinting, Event.notify PropId.fontHintStyle,
                Event.notify PropId.fontAntialias] ++ [Event.settingsChanged] ∧
      (∀ e ∈ pre, isFieldLevelEvent e = true) ∧
      ((gObjectSet Option.none
          [(PropId.fontHinting, GValue.int 1),
           (PropId.fontHintStyle, GValue.str (Option.some "hintfull")),
           (PropId.fontAntialias, GValue.int 1)] clutterAttachedInit).2).count
        Event.settingsChanged = 1 :=
  ⟨rfl,
   c1_coalesced_notification Option.none
     [(PropId.fontHinting, GValue.int 1),
      (PropId.fontHintStyle, GValue.str (Option.some "hintfull")),
      (PropId.fontAntialias, GValue.int 1)] clutterAttachedInit rfl⟩

/-- A single property store never touches the mouse-accessibility store
pointer. -/
theorem clutterSettingsSetProperty_mouseA11y (env : Option String) (p : PropId)
    (v : GValue) (s : ClutterSettings) :
    (clutterSettingsSetProperty env p v s).1.mouseA11ySettings =
      s.mouseA11ySettings := by
  cases p <;> simp [clutterSettingsSetProperty, settingsUpdateResolution]

/-- The property-store loop never touches the mouse-accessibility store
pointer. -/
theorem setPropertyList_mouseA11y (env : Option String)
    (props : List (PropId × GValue)) :
    ∀ s, (setPropertyList env props s).1.mouseA11ySettings =
      s.mouseA11ySettings := by
  induction props with
  | nil => intro s; rfl
  | cons pv rest ih =>
      intro s
      simp only [setPropertyList]
      rw [ih, clutterSettingsSetProperty_mouseA11y]

/-- `g_object_set` never touches the mouse-accessibility store pointer. -/
theorem gObjectSet_mouseA11y (env : Option String)
    (props : List (PropId × GValue)) (s : ClutterSettings) :
    (gObjectSet env props s).1.mouseA11ySettings = s.mouseA11ySettings := by
  simp only [gObjectSet]
  rw [setPropertyList_mouseA11y]

/-- A schema source with no schema available. -/
def allNoneSource : SchemaSource where
  lookup := fun _ => Option.none

/-- A seat whose current accessibility bundle is all zeros/defaults. -/
def seatZero : ClutterPointerA11ySettings where
  controls := 0
  secondary_click_delay := 0
  dwell_delay := 0
  dwell_threshold := 0
  dwell_mode := ClutterPointerA11yDwellMode.gesture
  dwell_gesture_single := ClutterPointerA11yDwellDirection.none
  dwell_gesture_double := ClutterPointerA11yDwellDirection.none
  dwell_gesture_drag := ClutterPointerA11yDwellDirection.none
  dwell_gesture_secondary := ClutterPointerA11yDwellDirection.none

/-- Counterexample to C7: with the mouse-accessibility store pointer NULL, an
accessibility-sync call is not a no-op — `sync_pointer_a11y_settings` has no
NULL check, reads the absent store and still pushes a bundle onto the seat. -/
theorem c7_counterexample :
    clutterSettingsEnsurePointerA11ySettings Option.none seatZero ≠ [] := by
  simp [clutterSettingsEnsurePointerA11ySettings]

/-- C7 as amended: a missing mouse-accessibility schema leaves the store
pointer NULL and only logs a warning (construction does not fail and the
other schemas are still processed), but a subsequent accessibility-sync call
is not a no-op: every read of the NULL store fails soft to the type default
and the resulting all-default bundle is unconditionally pushed onto the
seat. -/
theorem c7_amended_missing_a11y_schema (env : Option String)
    (source : SchemaSource) (s : ClutterSettings)
    (hmiss : source.lookup "org.gnome.desktop.a11y.mouse" = Option.none)
    (hs : s.mouseA11ySettings = Option.none) :
    (loadInitialSettings env source s).1.mouseA11ySettings = Option.none ∧
    Event.warning ("Failed to find schema: " ++ "org.gnome.desktop.peripherals.mouse") ∈
      (loadInitialSettings env source s).2 ∧
    (∀ seatCurrent : ClutterPointerA11ySettings,
      clutterSettingsEnsurePointerA11ySettings Option.none seatCurrent =
        [Event.seatSet
          { seatCurrent with
            controls := 0
            secondary_click_delay := 0
            dwell_delay := 0
            dwell_threshold := 0
            dwell_mode := ClutterPointerA11yDwellMode.gesture
            dwell_gesture_single := ClutterPointerA11yDwellDirection.none
            dwell_gesture_double := ClutterPointerA11yDwellDirection.none
            dwell_gesture_drag := ClutterPointerA11yDwellDirection.none
            dwell_gesture_secondary := ClutterPointerA11yDwellDirection.none }]) := by
  refine ⟨?_, ?_, ?_⟩
  · simp only [loadInitialSettings, hmiss]
    cases h1 : source.lookup "org.gnome.desktop.interface" <;>
      cases h2 : source.lookup "org.gnome.desktop.peripherals.mouse" <;>
        simp [h1, h2, syncMouseOptions, gObjectSet_mouseA11y, hs]
  · simp only [loadInitialSettings, hmiss]
    cases h1 : source.lookup "org.gnome.desktop.interface" <;>
      cases h2 : source.lookup "org.gnome.desktop.peripherals.mouse" <;>
        simp [h1, h2]
  · intro seatCurrent
    simp [clutterSettingsEnsurePointerA11ySettings, syncPointerA11ySettings,
      gSettingsGetBoolean, gSettingsGetDouble, gSettingsGetInt, gSettingsGetEnum,
      pointerA11yDwellDirectionFromSetting, cTrunc]

/-- Witness for C7 as amended: with no schema available at all, construction
leaves the a11y store NULL and a sync call on the all-zero seat pushes back
the all-default bundle. -/
theorem c7_amended_missing_a11y_schema_witness :
    allNoneSource.lookup "org.gnome.desktop.a11y.mouse" = Option.none ∧
    clutterSettingsInit.mouseA11ySettings = Option.none ∧
    (loadInitialSettings Option.none allNoneSource
        clutterSettingsInit).1.mouseA11ySettings = Option.none ∧
    clutterSettingsEnsurePointerA11ySettings Option.none seatZero =
      [Event.seatSet seatZero] :=
  ⟨rfl, rfl,
   (c7_amended_missing_a11y_schema Option.none allNoneSource clutterSettingsInit
      rfl rfl).1,
   (c7_amended_missing_a11y_schema Option.none allNoneSource clutterSettingsInit
      rfl rfl).2.2 seatZero⟩
